import Mathlib

/-!
Verification of the wallet connection/session state machine of the
web3-wallet-app repository, embedded shallowly from
`src/store/walletStore.js`.

The store is a single global object with fields
`address, balance, network, chainId, status, error, _listeners` and
actions `connect, disconnect, refreshBalance, startListeners,
stopListeners` plus the two provider-event handlers `onAccountsChanged`
and `onChainChanged` defined inside `startListeners`.

Modelling conventions:
  * JS `null` is `Option.none`; a JS string is a Lean `String`.
  * The provider (`window.ethereum`) is external: each action that talks
    to it takes the provider outcome as an explicit parameter
    (`ConnectOutcome`, `BalanceOutcome`).
  * The `_listeners` reference stored on the store object is the Boolean
    field `listeners` (whether a handler pair is currently stored), and
    `registered` counts how many handler pairs are registered on
    `window.ethereum` (each `startListeners` call registers one pair,
    `stopListeners` removes the stored pair only).
  * `connect` is split at its first `await` into `connectPhase1`
    (the synchronous prefix up to and including the provider prompt) and
    `connectPhase2` (the continuation after the provider replies); the
    whole call is their composition.  The split lets interleavings of two
    in-flight `connect` calls be stated.  Observable provider
    interactions (the account-access prompt, a listener registration)
    are returned as a `WalletEvent` list.
-/

/-- The `status` field: one of the four string constants
`idle | connecting | connected | error` used by the store. -/
inductive Status where
  | idle
  | connecting
  | connected
  | error
deriving DecidableEq, Repr

/-- The session state held by the zustand store (`walletStore.js`),
together with the bookkeeping of listener registrations on
`window.ethereum`. -/
structure SessionState where
  address : Option String
  balance : Option String
  network : Option String
  chainId : Option Int
  status : Status
  error : Option String
  /-- whether `_listeners` currently holds a handler pair (JS: non-null) -/
  listeners : Bool
  /-- number of handler pairs registered on `window.ethereum` -/
  registered : Nat
deriving DecidableEq, Repr

/-- The initial store state (`address: null, ..., status: 'idle', error: null,
_listeners: null`). -/
def initialState : SessionState :=
  { address := none, balance := none, network := none, chainId := none,
    status := Status.idle, error := none, listeners := false, registered := 0 }

/-- The static `NETWORK_NAMES` map of `walletStore.js`. -/
def NETWORK_NAMES (id : Int) : Option String :=
  if id = 1 then some "Ethereum Mainnet"
  else if id = 11155111 then some "Sepolia Testnet"
  else if id = 137 then some "Polygon"
  else if id = 80001 then some "Mumbai Testnet"
  else none

/-- `NETWORK_NAMES[chainId] || Chain ID: chainId` — the fallback
expression used in `connect` and `onChainChanged`. -/
def networkName (chainId : Int) : String :=
  (NETWORK_NAMES chainId).getD ("Chain ID: " ++ toString chainId)

/-- JS truthiness test used by the store on the `address` field
(`!address` is true for both `null` and the empty string). -/
def jsFalsyAddr (a : Option String) : Bool :=
  match a with
  | none => true
  | some s => s.isEmpty

/-- `getShortAddress`: returns `null` when `!address`, otherwise
`address.slice(0, 6) + "..." + address.slice(-4)`.
JS `slice(0, 6)` is `String.take 6`; `slice(-4)` is
`String.drop (length - 4)` (Nat subtraction clips at 0 exactly as JS
clips the negative start index). -/
def getShortAddress (s : SessionState) : Option String :=
  match s.address with
  | none => none
  | some a =>
      if a.isEmpty then none
      else some (a.take 6 ++ "..." ++ a.drop (a.length - 4))

/-- `startListeners`: registers one handler pair on `window.ethereum` and
stores the pair in `_listeners` (overwriting any previously stored pair). -/
def startListeners (s : SessionState) : SessionState :=
  { s with listeners := true, registered := s.registered + 1 }

/-- `stopListeners`: returns immediately when `_listeners` is null;
otherwise removes the stored pair from `window.ethereum` and nulls
`_listeners`. -/
def stopListeners (s : SessionState) : SessionState :=
  if s.listeners then
    { s with listeners := false, registered := s.registered - 1 }
  else s

/-- `disconnect`: `stopListeners()` then reset every state field to its
initial value. -/
def disconnect (s : SessionState) : SessionState :=
  let s := stopListeners s
  { s with address := none, balance := none, network := none,
           chainId := none, status := Status.idle, error := none }

/-- Outcome of the provider balance read performed by `refreshBalance`
(`provider.getBalance`): it either throws or yields a formatted balance
string. -/
inductive BalanceOutcome where
  | failure
  | success (bal : String)
deriving DecidableEq, Repr

/-- `refreshBalance`: no-op (early return) when `!address`; otherwise
reads the balance from the provider, storing it on success and silently
swallowing a thrown error.  The Boolean reports whether the provider
read was attempted. -/
def refreshBalance (s : SessionState) (o : BalanceOutcome) :
    SessionState × Bool :=
  if jsFalsyAddr s.address then (s, false)
  else
    match o with
    | BalanceOutcome.failure => (s, true)
    | BalanceOutcome.success bal => ({ s with balance := some bal }, true)

/-- What the provider does after `connect` has prompted it with
`eth_requestAccounts`: the user rejects (error code 4001), some other
error is thrown (with `err.message`, possibly empty), or the whole
account/balance/network read sequence succeeds. -/
inductive PromptOutcome where
  | rejected
  | failed (msg : String)
  | success (addr bal : String) (chainId : Int)
deriving DecidableEq, Repr

/-- Observable interactions of `connect` with the provider: the
account-access prompt (`eth_requestAccounts`, the MetaMask popup) and a
listener-pair registration (`startListeners`). -/
inductive WalletEvent where
  | prompt
  | register
deriving DecidableEq, Repr

/-- The synchronous prefix of `connect`, up to its first `await`: the
`window.ethereum` presence check, then `set({status:'connecting',
error:null})` and the `eth_requestAccounts` prompt.  When the provider
is absent it sets the error message and `status:'error'` and returns
without prompting. -/
def connectPhase1 (hasProvider : Bool) (s : SessionState) :
    SessionState × List WalletEvent :=
  if hasProvider then
    ({ s with status := Status.connecting, error := none },
     [WalletEvent.prompt])
  else
    ({ s with error := some "MetaMask not found. Install it at metamask.io",
              status := Status.error }, [])

/-- The continuation of `connect` after the provider replies: on success
it stores address/balance/network/chainId, sets `status:'connected'` and
calls `startListeners`; on an error it sets `status:'error'` with the
4001 message or `err.message || 'Something went wrong.'`. -/
def connectPhase2 (s : SessionState) (o : PromptOutcome) :
    SessionState × List WalletEvent :=
  match o with
  | PromptOutcome.success addr bal cid =>
      (startListeners
        { s with address := some addr, balance := some bal,
                 network := some (networkName cid), chainId := some cid,
                 status := Status.connected },
       [WalletEvent.register])
  | PromptOutcome.rejected =>
      ({ s with status := Status.error,
                error := some "Connection rejected. Please try again." }, [])
  | PromptOutcome.failed msg =>
      ({ s with status := Status.error,
                error := some (if msg.isEmpty then "Something went wrong."
                               else msg) }, [])

/-- The possible overall outcomes of one `connect()` call that runs to
completion without interleaving: provider absent, or a prompt followed
by a `PromptOutcome`. -/
inductive ConnectOutcome where
  | noProvider
  | rejected
  | failed (msg : String)
  | success (addr bal : String) (chainId : Int)
deriving DecidableEq, Repr

/-- One complete, un-interleaved `connect()` call: phase 1 followed (when
the provider is present) by phase 2. -/
def connect (s : SessionState) (o : ConnectOutcome) : SessionState :=
  match o with
  | ConnectOutcome.noProvider => (connectPhase1 false s).1
  | ConnectOutcome.rejected =>
      (connectPhase2 (connectPhase1 true s).1 PromptOutcome.rejected).1
  | ConnectOutcome.failed msg =>
      (connectPhase2 (connectPhase1 true s).1 (PromptOutcome.failed msg)).1
  | ConnectOutcome.success addr bal cid =>
      (connectPhase2 (connectPhase1 true s).1
        (PromptOutcome.success addr bal cid)).1

/-- The `onAccountsChanged` handler installed by `startListeners`: on an
empty account list it calls `disconnect()`, otherwise it adopts
`accounts[0]` as the address and calls `refreshBalance()` (whose
provider read outcome is the extra parameter). -/
def onAccountsChanged (s : SessionState) (accounts : List String)
    (o : BalanceOutcome) : SessionState :=
  match accounts with
  | [] => disconnect s
  | a :: _ => (refreshBalance { s with address := some a } o).1

/-- A value of a hex digit character, or `none`. -/
def hexDigitVal (c : Char) : Option Nat :=
  if '0' ≤ c ∧ c ≤ '9' then some (c.toNat - '0'.toNat)
  else if 'a' ≤ c ∧ c ≤ 'f' then some (c.toNat - 'a'.toNat + 10)
  else if 'A' ≤ c ∧ c ≤ 'F' then some (c.toNat - 'A'.toNat + 10)
  else none

/-- Accumulate the longest run of leading hex digits; the accumulator is
`none` until the first digit is seen (so an input with no digits yields
`none` = JS `NaN`). -/
def parseHexRun : List Char → Option Nat → Option Nat
  | [], acc => acc
  | c :: cs, acc =>
      match hexDigitVal c with
      | some d => parseHexRun cs (some (acc.getD 0 * 16 + d))
      | none => acc

/-- JS `parseInt(str, 16)`: skip leading whitespace, an optional sign,
an optional `0x`/`0X` prefix, then parse the longest run of hex digits;
`none` models `NaN` (no digits found). -/
def jsParseIntHex (str : String) : Option Int :=
  let cs := str.toList.dropWhile Char.isWhitespace
  let sc : Int × List Char :=
    match cs with
    | '-' :: rest => (-1, rest)
    | '+' :: rest => (1, rest)
    | _ => (1, cs)
  let cs2 : List Char :=
    match sc.2 with
    | '0' :: 'x' :: rest => rest
    | '0' :: 'X' :: rest => rest
    | _ => sc.2
  match parseHexRun cs2 none with
  | some n => some (sc.1 * (n : Int))
  | none => none

/-- The `onChainChanged` handler installed by `startListeners`: parses
the hex chain id with `parseInt(hexChainId, 16)`, recomputes the network
label through `NETWORK_NAMES` with the `Chain ID: n` fallback, stores
both, and calls `refreshBalance()`.  The `NaN` branch (an argument with
no hex digits, which MetaMask never sends) stores `NaN`/`Chain ID: NaN`;
`NaN` in the numeric `chainId` field is modelled as `none`. -/
def onChainChanged (s : SessionState) (hexChainId : String)
    (o : BalanceOutcome) : SessionState :=
  match jsParseIntHex hexChainId with
  | some cid =>
      (refreshBalance
        { s with chainId := some cid, network := some (networkName cid) }
        o).1
  | none =>
      (refreshBalance
        { s with chainId := none, network := some "Chain ID: NaN" } o).1

/-- One store action in a `connect`/`disconnect` sequence (each call runs
to completion before the next starts). -/
inductive Op where
  | connect (o : ConnectOutcome)
  | disconnect
deriving DecidableEq, Repr

/-- Apply one operation to the state. -/
def step (s : SessionState) : Op → SessionState
  | Op.connect o => connect s o
  | Op.disconnect => disconnect s

/-- Run a sequence of operations from a given state. -/
def runFrom (s : SessionState) (ops : List Op) : SessionState :=
  ops.foldl step s

/-- Run a sequence of operations from the initial state. -/
def run (ops : List Op) : SessionState :=
  runFrom initialState ops

/-- `true` when every `connect` in the sequence is issued from a state
whose `address` is absent. -/
def connectsWhenAbsent : SessionState → List Op → Bool
  | _, [] => true
  | s, op :: rest =>
      (match op with
       | Op.connect _ => s.address.isNone
       | Op.disconnect => true)
      && connectsWhenAbsent (step s op) rest

/-- Two `connect()` calls interleaved at the provider prompt: the first
runs its synchronous prefix and suspends awaiting the provider; the
second is invoked while `status = 'connecting'` and runs its own prefix;
then each continuation resolves in order.  Returns the final state and
the concatenated observable provider interactions. -/
def doubleConnectTrace (o1 o2 : PromptOutcome) :
    SessionState × List WalletEvent :=
  let p1 := connectPhase1 true initialState
  let p2 := connectPhase1 true p1.1
  let r1 := connectPhase2 p2.1 o1
  let r2 := connectPhase2 r1.1 o2
  (r2.1, p1.2 ++ p2.2 ++ r1.2 ++ r2.2)

/-!
## Shared helper lemmas
-/

/-- `refreshBalance` touches only the `balance` field: every other field
of the resulting state equals that of the input state, on every provider
outcome. -/
theorem refreshBalance_frame (s : SessionState) (o : BalanceOutcome) :
    (refreshBalance s o).1.address = s.address ∧
    (refreshBalance s o).1.network = s.network ∧
    (refreshBalance s o).1.chainId = s.chainId ∧
    (refreshBalance s o).1.status = s.status ∧
    (refreshBalance s o).1.error = s.error ∧
    (refreshBalance s o).1.listeners = s.listeners ∧
    (refreshBalance s o).1.registered = s.registered := by
  unfold refreshBalance
  split
  · exact ⟨rfl, rfl, rfl, rfl, rfl, rfl, rfl⟩
  · cases o <;> exact ⟨rfl, rfl, rfl, rfl, rfl, rfl, rfl⟩

/-- The `_listeners` reference is null after every `disconnect`. -/
theorem disconnect_listeners_false (s : SessionState) :
    (disconnect s).listeners = false := by
  unfold disconnect stopListeners
  split <;> simp_all

/-!
## Claim theorems
-/

/-- C1 counterexample: a `connect()` whose prompt the user rejects
(provider error code 4001) does NOT return the session to `Idle` with no
persistent error; from the initial state it leaves `status = error` and
stores the persistent message `"Connection rejected. Please try again."`
in the `error` field. -/
theorem connect_rejected_cex :
    (connect initialState ConnectOutcome.rejected).status = Status.error ∧
    (connect initialState ConnectOutcome.rejected).error =
      some "Connection rejected. Please try again." ∧
    Status.error ≠ Status.idle ∧
    (some "Connection rejected. Please try again." : Option String) ≠
      none := by
  refine ⟨rfl, rfl, by decide, by decide⟩

/-- C1 (amended): for every `connect()` call in which the provider
rejects with the user-rejection code 4001, the session transitions to
`status = error` and the persistent message
`"Connection rejected. Please try again."` is surfaced in the `error`
field — the rejection is treated like any other connect failure, not as
a silent return to `Idle`. -/
theorem connect_rejected_sets_error (s : SessionState) :
    (connect s ConnectOutcome.rejected).status = Status.error ∧
    (connect s ConnectOutcome.rejected).error =
      some "Connection rejected. Please try again." :=
  ⟨rfl, rfl⟩

/-- C4: `disconnect()` is idempotent — from every session state, two
consecutive calls yield exactly the state one call yields — and listener
deregistration (`stopListeners`) is a no-op when no listener pair is
stored. -/
theorem disconnect_idempotent (s : SessionState) :
    disconnect (disconnect s) = disconnect s ∧
    (s.listeners = false → stopListeners s = s) := by
  constructor
  · cases h : s.listeners <;> simp [disconnect, stopListeners, h]
  · intro h
    unfold stopListeners
    simp [h]

/-- C4 witness: idempotence and the no-op deregistration evaluated at
the initial state (which has no registered listeners). -/
theorem disconnect_idempotent_witness :
    disconnect (disconnect initialState) = disconnect initialState ∧
    stopListeners initialState = initialState :=
  ⟨(disconnect_idempotent initialState).1,
   (disconnect_idempotent initialState).2 rfl⟩

/-- C5: from every `Connected` session state, the `accountsChanged`
handler applied to the empty account list produces exactly the state
`disconnect()` produces. -/
theorem accountsChanged_empty_eq_disconnect (s : SessionState)
    (o : BalanceOutcome) (h : s.status = Status.connected) :
    onAccountsChanged s [] o = disconnect s := rfl

/-- C5 witness: the equivalence evaluated at the concrete connected state
reached by one successful `connect()`. -/
theorem accountsChanged_empty_eq_disconnect_witness :
    onAccountsChanged
      (connect initialState (ConnectOutcome.success "0xAb" "1.0000" 1)) []
      BalanceOutcome.failure =
    disconnect
      (connect initialState (ConnectOutcome.success "0xAb" "1.0000" 1)) :=
  accountsChanged_empty_eq_disconnect
    (connect initialState (ConnectOutcome.success "0xAb" "1.0000" 1))
    BalanceOutcome.failure (by decide)

/-- C6: for every session state whose `address` is absent,
`refreshBalance()` is a no-op: the state is returned unchanged in every
field, and the provider read is never attempted (the Boolean component
is `false`). -/
theorem refreshBalance_absent_noop (s : SessionState) (o : BalanceOutcome)
    (h : s.address = none) :
    refreshBalance s o = (s, false) := by
  simp [refreshBalance, jsFalsyAddr, h]

/-- C6 witness: the no-op evaluated at the initial state (address
absent) with a would-be successful provider read. -/
theorem refreshBalance_absent_noop_witness :
    refreshBalance initialState (BalanceOutcome.success "2.0000") =
      (initialState, false) :=
  refreshBalance_absent_noop initialState (BalanceOutcome.success "2.0000")
    rfl

/-- C7: for every session state with `address` present, when the provider
balance read inside `refreshBalance()` throws, the resulting state equals
the input state in every field — in particular `balance`, `status` and
`error` are untouched; the failure is swallowed entirely. -/
theorem refreshBalance_failure_swallowed (s : SessionState)
    (h : s.address.isSome = true) :
    (refreshBalance s BalanceOutcome.failure).1 = s := by
  unfold refreshBalance
  split <;> rfl

/-- C7 witness: the swallowed failure evaluated at the concrete connected
state reached by one successful `connect()`. -/
theorem refreshBalance_failure_swallowed_witness :
    (refreshBalance
      (connect initialState (ConnectOutcome.success "0xAb" "1.0000" 1))
      BalanceOutcome.failure).1 =
    connect initialState (ConnectOutcome.success "0xAb" "1.0000" 1) :=
  refreshBalance_failure_swallowed
    (connect initialState (ConnectOutcome.success "0xAb" "1.0000" 1))
    (by decide)

/-- C3: `connect()` has no re-entrancy guard.  When a second `connect()`
is invoked while the first is still awaiting the provider (so
`status = connecting`), the second call prompts the provider again and,
when both resolve successfully, registers a second listener pair — and
since the stored `_listeners` reference was overwritten, a subsequent
`disconnect()` removes only one of the two registered pairs, leaking the
other.  This contradicts the required behaviour (the second caller
should observe the in-flight transition, with no second prompt and no
second registration) and the code's own listener-cleanup intent. -/
theorem connect_double_prompt_bug :
    (connectPhase1 true initialState).1.status = Status.connecting ∧
    (doubleConnectTrace (PromptOutcome.success "0xAb" "1.0000" 1)
        (PromptOutcome.success "0xAb" "1.0000" 1)).2.count
      WalletEvent.prompt = 2 ∧
    (doubleConnectTrace (PromptOutcome.success "0xAb" "1.0000" 1)
        (PromptOutcome.success "0xAb" "1.0000" 1)).2.count
      WalletEvent.register = 2 ∧
    (doubleConnectTrace (PromptOutcome.success "0xAb" "1.0000" 1)
        (PromptOutcome.success "0xAb" "1.0000" 1)).1.registered = 2 ∧
    (disconnect (doubleConnectTrace (PromptOutcome.success "0xAb" "1.0000" 1)
        (PromptOutcome.success "0xAb" "1.0000" 1)).1).registered = 1 := by
  decide

/-- C9: a `connect()` while the wallet provider is absent yields
`status = error` with the non-empty persistent message
`"MetaMask not found. Install it at metamask.io"`, and a subsequent
successful `connect()` clears the error field (to `none`) and reaches
`status = connected` — from every starting state and for every successful
provider reply. -/
theorem connect_noProvider_then_success (s : SessionState) :
    (connect s ConnectOutcome.noProvider).status = Status.error ∧
    (connect s ConnectOutcome.noProvider).error =
      some "MetaMask not found. Install it at metamask.io" ∧
    ("MetaMask not found. Install it at metamask.io" : String) ≠ "" ∧
    ∀ addr bal cid,
      (connect (connect s ConnectOutcome.noProvider)
        (ConnectOutcome.success addr bal cid)).status = Status.connected ∧
      (connect (connect s ConnectOutcome.noProvider)
        (ConnectOutcome.success addr bal cid)).error = none := by
  refine ⟨rfl, rfl, by decide, fun addr bal cid => ⟨rfl, rfl⟩⟩

/-- C10 counterexample: on the session state whose `address` is the empty
string, `getShortAddress()` returns the absent value although `address`
is present (JS: `!''` is true, so the guard fires on a non-null
address). -/
theorem getShortAddress_empty_cex :
    getShortAddress { initialState with address := some "" } = none ∧
    ({ initialState with address := some "" } : SessionState).address ≠
      none := by
  decide

/-- C10 (amended): `getShortAddress()` returns the absent value exactly
when `address` is absent or is the empty string; for every non-empty
address it returns the first 6 characters, the literal `"..."`, and the
last 4 characters (JS `slice(0,6)` and `slice(-4)`, which return the
whole string when it is shorter than the window). -/
theorem getShortAddress_spec :
    (∀ s : SessionState,
      getShortAddress s = none ↔
        (s.address = none ∨ s.address = some "")) ∧
    (∀ (s : SessionState) (a : String), s.address = some a → a ≠ "" →
      getShortAddress s =
        some (a.take 6 ++ "..." ++ a.drop (a.length - 4))) := by
  constructor
  · intro s
    unfold getShortAddress
    cases h : s.address with
    | none => simp [h]
    | some a =>
        simp [h, String.isEmpty_iff a]
  · intro s a h hne
    unfold getShortAddress
    rw [h]
    simp [String.isEmpty_iff a, hne]

/-- C10 witness: the amended specification evaluated at a concrete
17-character address and at the initial (absent-address) state. -/
theorem getShortAddress_spec_witness :
    getShortAddress
      { initialState with address := some "0x0879abcdef12aF38" } =
      some "0x0879...aF38" ∧
    getShortAddress initialState = none :=
  ⟨(getShortAddress_spec.2
      { initialState with address := some "0x0879abcdef12aF38" }
      "0x0879abcdef12aF38" rfl (by decide)).trans (by decide),
   (getShortAddress_spec.1 initialState).mpr (Or.inl rfl)⟩

/-- C8: the `chainChanged` handler parses its argument as hexadecimal
(JS `parseInt(hexChainId, 16)`) and stores the parsed id together with
the label from the fixed table
`{1: Ethereum Mainnet, 11155111: Sepolia Testnet, 137: Polygon,
80001: Mumbai Testnet}`, rendering every other id as `"Chain ID: {id}"`;
in particular `"0xaa36a7"` (= 11155111) yields `"Sepolia Testnet"`. -/
theorem onChainChanged_spec :
    (∀ (s : SessionState) (o : BalanceOutcome) (hex : String) (n : Int),
      jsParseIntHex hex = some n →
        (onChainChanged s hex o).chainId = some n ∧
        (onChainChanged s hex o).network = some (networkName n)) ∧
    networkName 1 = "Ethereum Mainnet" ∧
    networkName 11155111 = "Sepolia Testnet" ∧
    networkName 137 = "Polygon" ∧
    networkName 80001 = "Mumbai Testnet" ∧
    (∀ n : Int, n ≠ 1 → n ≠ 11155111 → n ≠ 137 → n ≠ 80001 →
      networkName n = "Chain ID: " ++ toString n) ∧
    jsParseIntHex "0xaa36a7" = some 11155111 ∧
    (∀ (s : SessionState) (o : BalanceOutcome),
      (onChainChanged s "0xaa36a7" o).network = some "Sepolia Testnet") := by
  refine ⟨?_, by decide, by decide, by decide, by decide, ?_, by decide, ?_⟩
  · intro s o hex n h
    unfold onChainChanged
    rw [h]
    exact ⟨((refreshBalance_frame _ o).2.2.1).trans rfl,
           ((refreshBalance_frame _ o).2.1).trans rfl⟩
  · intro n h1 h2 h3 h4
    simp [networkName, NETWORK_NAMES, h1, h2, h3, h4]
  · intro s o
    unfold onChainChanged
    rw [show jsParseIntHex "0xaa36a7" = some 11155111 from by decide]
    exact ((refreshBalance_frame _ o).2.1).trans
      (by rw [show networkName 11155111 = "Sepolia Testnet" from by decide])

/-- C8 witness: the parsed chain id and the recomputed network label
evaluated at the concrete notification `"0xaa36a7"`, and the fallback
label evaluated at the unknown id 5. -/
theorem onChainChanged_spec_witness :
    (onChainChanged initialState "0xaa36a7" BalanceOutcome.failure).chainId =
      some 11155111 ∧
    (onChainChanged initialState "0xaa36a7" BalanceOutcome.failure).network =
      some "Sepolia Testnet" ∧
    networkName 5 = "Chain ID: 5" :=
  ⟨(onChainChanged_spec.1 initialState BalanceOutcome.failure "0xaa36a7"
      11155111 (by decide)).1,
   onChainChanged_spec.2.2.2.2.2.2.2 initialState BalanceOutcome.failure,
   (onChainChanged_spec.2.2.2.2.2.1 5 (by decide) (by decide) (by decide)
      (by decide)).trans (by decide)⟩

/-- After `disconnect` the address field is reset to `null`. -/
theorem disconnect_address (s : SessionState) :
    (disconnect s).address = none := rfl

/-- After `disconnect` the status field is `idle`. -/
theorem disconnect_status (s : SessionState) :
    (disconnect s).status = Status.idle := rfl

/-- One-step preservation of `status = connected → address present`. -/
theorem step_preserves_connected_addr (s : SessionState) (op : Op) :
    (step s op).status = Status.connected →
      (step s op).address.isSome = true := by
  cases op with
  | disconnect =>
      intro hc
      rw [show (step s Op.disconnect).status = Status.idle from rfl] at hc
      exact absurd hc (by decide)
  | connect o =>
      cases o with
      | noProvider =>
          intro hc
          rw [show (step s (Op.connect ConnectOutcome.noProvider)).status =
                Status.error from rfl] at hc
          exact absurd hc (by decide)
      | rejected =>
          intro hc
          rw [show (step s (Op.connect ConnectOutcome.rejected)).status =
                Status.error from rfl] at hc
          exact absurd hc (by decide)
      | failed msg =>
          intro hc
          rw [show (step s (Op.connect (ConnectOutcome.failed msg))).status =
                Status.error from rfl] at hc
          exact absurd hc (by decide)
      | success addr bal cid => intro _; rfl

/-- Over any run: `status = connected → address present`, provided the
start state satisfies it. -/
theorem runFrom_connected_addr (ops : List Op) :
    ∀ s : SessionState,
      (s.status = Status.connected → s.address.isSome = true) →
      ((runFrom s ops).status = Status.connected →
        (runFrom s ops).address.isSome = true) := by
  induction ops with
  | nil => intro s h; exact h
  | cons op rest ih =>
      intro s _
      exact ih (step s op) (step_preserves_connected_addr s op)

/-- One-step preservation of `address present ↔ status = connected` for
steps whose `connect`s are issued from an absent-address state. -/
theorem step_preserves_addr_iff (s : SessionState) (op : Op)
    (h : s.address.isSome = true ↔ s.status = Status.connected)
    (hg : (match op with
           | Op.connect _ => s.address.isNone
           | Op.disconnect => true) = true) :
    (step s op).address.isSome = true ↔
      (step s op).status = Status.connected := by
  cases op with
  | disconnect =>
      rw [show (step s Op.disconnect).address = none from rfl,
          show (step s Op.disconnect).status = Status.idle from rfl]
      simp
  | connect o =>
      have ha : s.address = none := Option.isNone_iff_eq_none.mp hg
      cases o with
      | noProvider =>
          rw [show (step s (Op.connect ConnectOutcome.noProvider)).address =
                s.address from rfl, ha,
              show (step s (Op.connect ConnectOutcome.noProvider)).status =
                Status.error from rfl]
          simp
      | rejected =>
          rw [show (step s (Op.connect ConnectOutcome.rejected)).address =
                s.address from rfl, ha,
              show (step s (Op.connect ConnectOutcome.rejected)).status =
                Status.error from rfl]
          simp
      | failed msg =>
          rw [show (step s (Op.connect (ConnectOutcome.failed msg))).address =
                s.address from rfl, ha,
              show (step s (Op.connect (ConnectOutcome.failed msg))).status =
                Status.error from rfl]
          simp
      | success addr bal cid =>
          exact ⟨fun _ => rfl, fun _ => rfl⟩

/-- Over any run obeying the `connectsWhenAbsent` discipline:
`address present ↔ status = connected`, provided the start state
satisfies it. -/
theorem runFrom_addr_iff (ops : List Op) :
    ∀ s : SessionState,
      (s.address.isSome = true ↔ s.status = Status.connected) →
      connectsWhenAbsent s ops = true →
      ((runFrom s ops).address.isSome = true ↔
        (runFrom s ops).status = Status.connected) := by
  induction ops with
  | nil => intro s h _; exact h
  | cons op rest ih =>
      intro s h hg
      simp only [connectsWhenAbsent, Bool.and_eq_true] at hg
      obtain ⟨hg1, hg2⟩ := hg
      exact ih (step s op) (step_preserves_addr_iff s op h hg1) hg2

/-- C2 counterexample: in the sequence [successful `connect()`, then a
`connect()` attempted with the provider absent] run from the initial
state, the failing second `connect` leaves the previously stored address
in place while setting `status = error`, so `address` is present although
`status` is not `connected`. -/
theorem address_iff_connected_cex :
    ¬(((run [Op.connect (ConnectOutcome.success "0xAb" "1.0000" 1),
             Op.connect ConnectOutcome.noProvider]).address.isSome = true) ↔
      (run [Op.connect (ConnectOutcome.success "0xAb" "1.0000" 1),
            Op.connect ConnectOutcome.noProvider]).status =
        Status.connected) ∧
    (run [Op.connect (ConnectOutcome.success "0xAb" "1.0000" 1),
          Op.connect ConnectOutcome.noProvider]).address = some "0xAb" ∧
    (run [Op.connect (ConnectOutcome.success "0xAb" "1.0000" 1),
          Op.connect ConnectOutcome.noProvider]).status = Status.error := by
  decide

/-- C2 (amended): for every sequence of `connect()`/`disconnect()` calls
from the initial state with arbitrary provider outcomes, `status =
connected` implies `address` is present; and the full equivalence
(`address` present iff `status = connected`) holds for every sequence in
which each `connect()` is issued while `address` is absent — a failing
`connect()` issued while an address is stored (e.g. while connected)
keeps the address with `status = error`, which is the only way the
equivalence can break. -/
theorem address_iff_connected_amended :
    (∀ ops : List Op, (run ops).status = Status.connected →
      (run ops).address.isSome = true) ∧
    (∀ ops : List Op, connectsWhenAbsent initialState ops = true →
      ((run ops).address.isSome = true ↔
        (run ops).status = Status.connected)) := by
  constructor
  · intro ops
    exact runFrom_connected_addr ops initialState (by intro h; exact absurd h (by decide))
  · intro ops hg
    exact runFrom_addr_iff ops initialState (by decide) hg

/-- C2 witness: the amended equivalence evaluated on the concrete
sequence [successful connect, disconnect, rejected connect], whose
`connect`s all start from an absent address. -/
theorem address_iff_connected_amended_witness :
    (run [Op.connect (ConnectOutcome.success "0xAb" "1.0000" 1),
          Op.disconnect, Op.connect ConnectOutcome.rejected]).address.isSome =
      true ↔
    (run [Op.connect (ConnectOutcome.success "0xAb" "1.0000" 1),
          Op.disconnect, Op.connect ConnectOutcome.rejected]).status =
      Status.connected :=
  address_iff_connected_amended.2
    [Op.connect (ConnectOutcome.success "0xAb" "1.0000" 1),
     Op.disconnect, Op.connect ConnectOutcome.rejected] (by decide)
